import Mathlib

/-!
Verification of the SNMP BER codec and the resource-collection engine of rust-mmt
(src/snmp.rs and src/collector.rs).

Modelling conventions:
* `u8` bytes are `Nat` values (< 256 in every reachable state); byte strings are `List Nat`.
* Rust `&str` is `String`; the character-level operations the code uses (`split('.')`,
  `trim`, `eq_ignore_ascii_case`, `parse::<u32>()`) are embedded structurally over
  `String.data` so that they evaluate inside the kernel.
* `f64` is modelled as the exact rationals `ℚ`; every concrete input appearing in a theorem
  below is exactly representable in `f64` and the modelled arithmetic is exact on it.
* Overflowing Rust operations are modelled with the release-profile (wrapping) semantics and
  the debug-profile (panicking) behaviour is recorded in comments where the two differ.
-/

/-- The little-endian base-256 digit loop `while val > 0 { bytes.push(val & 0xff); val >>= 8 }`
shared by `encode_unsigned_int`, `encode_unsigned_int_64`, `encode_integer` and
`encode_length` in src/snmp.rs. `fuel` bounds the iteration count so the definition is
structural; `fuel = n` always suffices (each iteration divides by 256). -/
def natToBytesLEFuel : Nat → Nat → List Nat
  | 0, _ => []
  | fuel + 1, n => if n = 0 then [] else n % 256 :: natToBytesLEFuel fuel (n / 256)

/-- Little-endian base-256 bytes of `n` (empty for 0), the result of the push loop above. -/
def natToBytesLE (n : Nat) : List Nat := natToBytesLEFuel n n

/-- `encode_unsigned_int` (src/snmp.rs:377): big-endian base-256 bytes of a `u32`,
`[0]` for zero. Note this is plain base 256, not BER base-128 arc encoding. -/
def encode_unsigned_int (value : Nat) : List Nat :=
  if value = 0 then [0] else (natToBytesLE value).reverse

/-- `encode_unsigned_int_64` (src/snmp.rs:394): same loop over a `u64`. -/
def encode_unsigned_int_64 (value : Nat) : List Nat :=
  if value = 0 then [0] else (natToBytesLE value).reverse

/-- `encode_length` (src/snmp.rs:429): short form for lengths < 128, otherwise
`0x80 | n` followed by the `n` big-endian base-256 bytes of the length. -/
def encode_length (length : Nat) : List Nat :=
  if length < 128 then [length]
  else
    let bytes := (natToBytesLE length).reverse
    (0x80 ||| bytes.length) :: bytes

/-- `decode_length` (src/snmp.rs:446). Returns (decoded length, bytes consumed).
The Rust accumulator is a `usize`; at most 4 content bytes are ever read, so the
accumulated value stays below `2^32` and no wrapping can occur. -/
def decode_length (data : List Nat) : Except String (Nat × Nat) :=
  match data with
  | [] => Except.error "Invalid length encoding: empty"
  | b0 :: rest =>
    if b0 &&& 0x80 = 0 then
      Except.ok (b0, 1)
    else
      let lengthOfLength := b0 &&& 0x7f
      if lengthOfLength = 0 ∨ lengthOfLength > 4 then
        Except.error "Invalid length encoding: bad length of length"
      else if rest.length < lengthOfLength then
        -- `data.len() < 1 + length_of_length` in the source
        Except.error "Invalid length encoding: insufficient data"
      else
        Except.ok ((rest.take lengthOfLength).foldl (fun len b => (len <<< 8) ||| b) 0,
          1 + lengthOfLength)

/-- Carry propagation of `let sum = byte + carry; byte = sum & 0xff; carry = sum >> 8` over a
little-endian byte vector, the `+1` half of the two's-complement loop in `encode_integer`
(src/snmp.rs:360-365). A carry out of the last byte is dropped, as in the source. -/
def addCarryLE (carry : Nat) : List Nat → List Nat
  | [] => []
  | b :: bs => (b + carry) % 256 :: addCarryLE ((b + carry) / 256) bs

/-- `encode_integer` (src/snmp.rs:339): TLV with tag 0x02 whose content is the base-256
bytes of `|value|`, two's-complemented when `value < 0`, with no sign-disambiguating pad
byte. `value.abs() as u32` is modelled as `natAbs % 2^32` (the release-profile result;
a debug build panics at `i32::MIN`). -/
def encode_integer (value : Int) : List Nat :=
  let bytes :=
    if value = 0 then [0]
    else
      let absLE := natToBytesLE (value.natAbs % 2 ^ 32)
      let twos := if value < 0 then addCarryLE 1 (absLE.map (fun b => 255 - b)) else absLE
      twos.reverse
  0x02 :: (encode_length bytes.length ++ bytes)

/-- Reinterpret an unsigned 32-bit pattern as a signed `i32` value. -/
def toSigned32 (n : Nat) : Int := if n < 2 ^ 31 then (n : Int) else (n : Int) - 2 ^ 32

/-- `decode_integer` (src/snmp.rs:490) with Rust release-profile semantics for its two
overflowing operations: `value << 8` on `i32` discards the shifted-out bits, and the shift
amount of `1u32 << (data.len() * 8)` is reduced mod 32 (a debug build panics there whenever
`data.len() ≥ 4`). The running `i32` is modelled by its unsigned 32-bit pattern and converted
at the end by `toSigned32`. -/
def decode_integer (data : List Nat) : Except String Int :=
  match data with
  | [] => Except.error "Invalid integer: empty"
  | b0 :: _ =>
    let isNegative := b0 &&& 0x80 ≠ 0
    let value : Nat := data.foldl (fun value byte => ((value <<< 8) % 2 ^ 32) ||| byte) 0
    let value :=
      if isNegative then
        let mask := (2 ^ 32 - 1) - ((1 <<< (data.length * 8 % 32)) - 1)
        value ||| mask
      else value
    Except.ok (toSigned32 value)

/-- `decode_unsigned_int` (src/snmp.rs:511): big-endian accumulation into a wrapping `u32`. -/
def decode_unsigned_int (data : List Nat) : Except String Nat :=
  match data with
  | [] => Except.error "Invalid unsigned integer: empty"
  | _ => Except.ok (data.foldl (fun value byte => ((value <<< 8) % 2 ^ 32) ||| byte) 0)

/-- `decode_unsigned_int_64` (src/snmp.rs:523): big-endian accumulation into a wrapping `u64`. -/
def decode_unsigned_int_64 (data : List Nat) : Except String Nat :=
  match data with
  | [] => Except.error "Invalid unsigned integer: empty"
  | _ => Except.ok (data.foldl (fun value byte => ((value <<< 8) % 2 ^ 64) ||| byte) 0)

/-- `encode_sequence` (src/snmp.rs:332). -/
def encode_sequence (data : List Nat) : List Nat :=
  0x30 :: (encode_length data.length ++ data)

/-- `encode_octet_string` (src/snmp.rs:411). -/
def encode_octet_string (data : List Nat) : List Nat :=
  0x04 :: (encode_length data.length ++ data)

/-- `encode_oid` (src/snmp.rs:418). -/
def encode_oid (oidBytes : List Nat) : List Nat :=
  0x06 :: (encode_length oidBytes.length ++ oidBytes)

/-- `encode_null` (src/snmp.rs:425). -/
def encode_null : List Nat := [0x05, 0x00]

/-- Rust `str::split('.')`: the dot-separated segments, including empty ones. -/
def split_on_dot : List Char → List (List Char)
  | [] => [[]]
  | c :: rest =>
    let r := split_on_dot rest
    if c = '.' then [] :: r
    else
      match r with
      | [] => [[c]]
      | part :: parts => (c :: part) :: parts

/-- Rust `str::parse::<u32>()` as used on OID components: an optional leading `+`, then at
least one ASCII digit, rejecting values ≥ 2^32. -/
def parse_u32 (s : List Char) : Option Nat :=
  let digits := match s with | '+' :: rest => rest | _ => s
  if digits = [] then none
  else if digits.all Char.isDigit then
    let v := digits.foldl (fun acc c => acc * 10 + (c.toNat - '0'.toNat)) 0
    if v < 2 ^ 32 then some v else none
  else none

/-- `oid.split('.').filter_map(|s| s.parse().ok())` (src/snmp.rs:113-116). -/
def parse_oid (oid : String) : List Nat :=
  (split_on_dot oid.data).filterMap parse_u32

/-- The OID content-byte assembly of `build_get_request` (src/snmp.rs:125-134): the first two
parsed arcs become `encode_unsigned_int (40*arc0 + arc1)` when at least two arcs exist, and
every remaining arc is appended with `encode_unsigned_int`. -/
def oid_content_bytes (oidParts : List Nat) : List Nat :=
  (if oidParts.length ≥ 2 then
    encode_unsigned_int (oidParts.getD 0 0 * 40 + oidParts.getD 1 0)
  else []) ++ (oidParts.drop 2).flatMap encode_unsigned_int

/-- `SnmpClient::build_get_request` (src/snmp.rs:111): the full SNMPv2c GetRequest packet.
`request_id as i32` is the u32 pattern reinterpreted, modelled by `toSigned32`. -/
def build_get_request (community : List Nat) (oid : String) (requestId : Nat) :
    Except String (List Nat) :=
  let oidParts := parse_oid oid
  if oidParts.isEmpty then Except.error "Invalid OID format"
  else
    let oidBytes := oid_content_bytes oidParts
    let varbind := encode_oid oidBytes ++ encode_null
    let varbindEncoded := encode_sequence varbind
    let varbindList := encode_sequence varbindEncoded
    let pdu := encode_integer (toSigned32 (requestId % 2 ^ 32)) ++ encode_integer 0 ++
      encode_integer 0 ++ varbindList
    let pduEncoded := encode_sequence pdu
    let pduWithType := 0xa0 :: (encode_length pduEncoded.length ++ pduEncoded)
    let packet := encode_integer 1 ++ encode_octet_string community ++ pduWithType
    Except.ok (encode_sequence packet)

/-- `skip_ber_value` (src/snmp.rs:472). -/
def skip_ber_value (data : List Nat) (pos : Nat) : Except String Nat := do
  if pos ≥ data.length then
    throw "Invalid position: beyond data length"
  let newPos := pos + 1
  let (length, lengthBytes) ← decode_length (data.drop newPos)
  let newPos := newPos + lengthBytes
  if newPos + length > data.length then
    throw "Invalid BER value: length exceeds buffer"
  pure (newPos + length)

/-- `SnmpClient::parse_get_response` (src/snmp.rs:174). The final `f64` casts of the decoded
numeric values are dropped: the decoded value is returned as an exact integer. Note the
`match` on the value tag accepts exactly 0x02, 0x42, 0x43 and 0x46; tag 0x41 (Counter32 in
standard SNMP) falls through to the unsupported-type error. -/
def parse_get_response (response : List Nat) : Except String Int := do
  -- SEQUENCE header
  let pos := 0
  if pos ≥ response.length ∨ response.getD pos 0 ≠ 0x30 then
    throw "Invalid SNMP response: expected SEQUENCE"
  let pos := pos + 1
  let (_length, lengthBytes) ← decode_length (response.drop pos)
  let pos := pos + lengthBytes
  -- version, community
  let pos ← skip_ber_value response pos
  let pos ← skip_ber_value response pos
  -- PDU (GET-RESPONSE, 0xa2)
  if pos ≥ response.length ∨ response.getD pos 0 ≠ 0xa2 then
    throw "Invalid SNMP response: expected GET-RESPONSE PDU"
  let pos := pos + 1
  let (_pduLength, pduLengthBytes) ← decode_length (response.drop pos)
  let pos := pos + pduLengthBytes
  -- the parser expects the PDU body to open with a SEQUENCE
  if pos ≥ response.length ∨ response.getD pos 0 ≠ 0x30 then
    throw "Invalid SNMP response: expected SEQUENCE in PDU"
  let pos := pos + 1
  let (_pduSeqLength, pduSeqLengthBytes) ← decode_length (response.drop pos)
  let pos := pos + pduSeqLengthBytes
  -- request-id
  if pos ≥ response.length ∨ response.getD pos 0 ≠ 0x02 then
    throw "Invalid SNMP response: expected INTEGER for request-id"
  let pos := pos + 1
  let (reqIdLength, reqIdLengthBytes) ← decode_length (response.drop pos)
  let pos := pos + reqIdLengthBytes
  if pos + reqIdLength > response.length then
    throw "Invalid SNMP response: request-id length exceeds buffer"
  let _receivedRequestId ← decode_integer ((response.drop pos).take reqIdLength)
  -- a request-id mismatch is tolerated (only a comment in the source)
  let pos := pos + reqIdLength
  -- error-status
  if pos ≥ response.length ∨ response.getD pos 0 ≠ 0x02 then
    throw "Invalid SNMP response: expected INTEGER for error-status"
  let pos := pos + 1
  let (errorStatusLength, errorStatusLengthBytes) ← decode_length (response.drop pos)
  let pos := pos + errorStatusLengthBytes
  if pos + errorStatusLength > response.length then
    throw "Invalid SNMP response: error-status length exceeds buffer"
  let errorStatus ← decode_integer ((response.drop pos).take errorStatusLength)
  let pos := pos + errorStatusLength
  -- error-index
  if pos ≥ response.length ∨ response.getD pos 0 ≠ 0x02 then
    throw "Invalid SNMP response: expected INTEGER for error-index"
  let pos := pos + 1
  let (errorIndexLength, errorIndexLengthBytes) ← decode_length (response.drop pos)
  let pos := pos + errorIndexLengthBytes
  if pos + errorIndexLength > response.length then
    throw "Invalid SNMP response: error-index length exceeds buffer"
  let _errorIndex ← decode_integer ((response.drop pos).take errorIndexLength)
  let pos := pos + errorIndexLength
  if errorStatus ≠ 0 then
    throw "SNMP error"
  -- VarBindList, VarBind
  if pos ≥ response.length ∨ response.getD pos 0 ≠ 0x30 then
    throw "Invalid SNMP response: expected VarBindList"
  let pos := pos + 1
  let (_vblLength, vblLengthBytes) ← decode_length (response.drop pos)
  let pos := pos + vblLengthBytes
  if pos ≥ response.length ∨ response.getD pos 0 ≠ 0x30 then
    throw "Invalid SNMP response: expected VarBind"
  let pos := pos + 1
  let (_vbLength, vbLengthBytes) ← decode_length (response.drop pos)
  let pos := pos + vbLengthBytes
  -- OID, then the value
  let pos ← skip_ber_value response pos
  if pos ≥ response.length then
    throw "Invalid SNMP response: missing value"
  let valueType := response.getD pos 0
  let pos := pos + 1
  let (valueLength, valueLengthBytes) ← decode_length (response.drop pos)
  let pos := pos + valueLengthBytes
  if pos + valueLength > response.length then
    throw "Invalid SNMP response: value length exceeds buffer"
  let valueBytes := (response.drop pos).take valueLength
  match valueType with
  | 0x02 => decode_integer valueBytes
  | 0x42 => do
    let v ← decode_unsigned_int valueBytes
    pure (Int.ofNat v)
  | 0x43 => do
    let v ← decode_unsigned_int valueBytes
    pure (Int.ofNat v)
  | 0x46 => do
    let v ← decode_unsigned_int_64 valueBytes
    pure (Int.ofNat v)
  | _ => throw "Unsupported SNMP value type"


/-! ## Collector (src/collector.rs) -/

/-- `InterfaceTraffic` (src/app/types.rs:59). The struct doc says the two rate fields hold
bps despite their names. `f64` rates are modelled as `ℚ`. -/
structure InterfaceTraffic where
  name : String
  in_mbps : ℚ
  out_mbps : ℚ
deriving DecidableEq

/-- `ResourceData` (src/app/types.rs:67), one device's record for one polling cycle.
`collected_at` is modelled as a rational timestamp. -/
structure ResourceData where
  proxy_id : Nat
  host : String
  proxy_name : Option String
  cpu : Option ℚ
  mem : Option ℚ
  cc : Option ℚ
  cs : Option ℚ
  http : Option ℚ
  https : Option ℚ
  ftp : Option ℚ
  interfaces : List InterfaceTraffic
  collected_at : ℚ
  collection_failed : Bool
  error_message : Option String
deriving DecidableEq

/-- `Proxy` (src/app/types.rs:44); the presentation-only optional fields (alias,
traffic_log_path) are omitted, the collector never reads them. -/
structure Proxy where
  id : Nat
  host : String
  port : Nat
  username : String
  password : String
  group : String
deriving DecidableEq

/-- `calculate_mbps` (src/collector.rs:411): wraparound-corrected counter delta, then
`(diff * 8) / (Δt * 1_000_000)`. The `u64` arithmetic of the else-branch cannot overflow
(there `current < prev`, so `(u64::MAX - prev) + current + 1 ≤ u64::MAX`); `f64` division is
modelled exactly over `ℚ`. -/
def calculate_mbps (prev current : Nat) (time_diff_sec : ℚ) : ℚ :=
  let diff : Nat :=
    if current ≥ prev then current - prev
    else ((2 ^ 64 - 1) - prev) + current + 1
  ((diff : ℚ) * 8) / (time_diff_sec * 1000000)

/-- The interface-counter cache (src/collector.rs:13): `(proxy_id, interface_name) ->
(in_counter, out_counter, timestamp)`. The process-wide `HashMap` is modelled as an
association list with at most one entry per key. -/
abbrev RateCache : Type := List ((Nat × String) × (Nat × Nat × ℚ))

/-- `HashMap::get` on the cache. -/
def cacheLookup : RateCache → (Nat × String) → Option (Nat × Nat × ℚ)
  | [], _ => none
  | (k, v) :: rest, key => if k = key then some v else cacheLookup rest key

/-- `HashMap::insert` on the cache: overwrite the entry for the key, or append it. -/
def cacheInsert : RateCache → (Nat × String) → (Nat × Nat × ℚ) → RateCache
  | [], key, v => [(key, v)]
  | (k, v') :: rest, key, v =>
    if k = key then (key, v) :: rest else (k, v') :: cacheInsert rest key v

/-- The body of the per-interface rate loop in `collect_for_proxy`
(src/collector.rs:240-278) for one `(interface, counters)` entry: emit an InterfaceTraffic
only when a prior sample exists, `1.0 ≤ Δt ≤ 300.0`, and at least one direction's rate is
positive; always overwrite the cache entry with the new counters (absent direction stored
as 0 via `unwrap_or(0)`) and the current timestamp. -/
def rate_step (proxyId : Nat) (now : ℚ) (ifName : String)
    (in_counter out_counter : Option Nat) (cache : RateCache) :
    Option InterfaceTraffic × RateCache :=
  let cacheKey := (proxyId, ifName)
  let emitted :=
    match cacheLookup cache cacheKey with
    | some (prevIn, prevOut, prevTime) =>
      let timeDiff := now - prevTime
      if 1 ≤ timeDiff ∧ timeDiff ≤ 300 then
        let inMbps := match in_counter with
          | some currentIn => calculate_mbps prevIn currentIn timeDiff
          | none => 0
        let outMbps := match out_counter with
          | some currentOut => calculate_mbps prevOut currentOut timeDiff
          | none => 0
        if inMbps > 0 ∨ outMbps > 0 then
          some { name := ifName, in_mbps := inMbps, out_mbps := outMbps }
        else none
      else none
    | none => none
  (emitted, cacheInsert cache cacheKey (in_counter.getD 0, out_counter.getD 0, now))

/-- The full rate loop (src/collector.rs:240-278), folding `rate_step` over the obtained
interface-counter entries, collecting the emitted InterfaceTraffic in order. -/
def process_interfaces (proxyId : Nat) (now : ℚ) :
    List (String × Option Nat × Option Nat) → RateCache → List InterfaceTraffic × RateCache
  | [], cache => ([], cache)
  | (name, inC, outC) :: rest, cache =>
    let step := rate_step proxyId now name inC outC cache
    let tail := process_interfaces proxyId now rest step.2
    ((match step.1 with | some t => [t] | none => []) ++ tail.1, tail.2)

/-- The settled outcome of one awaited metric task: `Ok(value)` within the 5s timeout, or
anything else (SNMP/SSH error, join error, timeout), which only logs and leaves the field
absent (src/collector.rs:150-180). -/
inductive FetchResult where
  | ok (value : ℚ)
  | failed
deriving DecidableEq

/-- `ResourceCollector` (src/collector.rs:19): the metric OID map (keyed lookups only, so a
lookup function models the `HashMap`), the community string, and the interface OID map
(iterated, so modelled as an association list in iteration order; its keys — interface
names — are distinct). -/
structure ResourceCollector where
  oids : String → Option String
  community : String
  interface_oids : List (String × String × String)

/-- Rust `char::is_whitespace` restricted to the ASCII whitespace that can occur in OID
configuration strings. -/
def isRustWhitespace (c : Char) : Bool :=
  c = ' ' ∨ c = '\t' ∨ c = '\n' ∨ c = '\r'

/-- Rust `str::trim` over the character list. -/
def rust_trim (s : String) : List Char :=
  ((s.data.dropWhile isRustWhitespace).reverse.dropWhile isRustWhitespace).reverse

/-- ASCII lower-casing of one character. -/
def asciiLower (c : Char) : Char :=
  if 'A' ≤ c ∧ c ≤ 'Z' then Char.ofNat (c.toNat + 32) else c

/-- Rust `str::eq_ignore_ascii_case`. -/
def eq_ignore_ascii_case (a b : String) : Bool :=
  a.data.map asciiLower == b.data.map asciiLower

/-- Field value produced by one dispatched metric task (src/collector.rs:156-179): the value
on success, absent on error/timeout. -/
def snmpTaskValue : FetchResult → Option ℚ
  | .ok v => some v
  | .failed => none

/-- The interface-counter assembly of `collect_for_proxy` (src/collector.rs:183-232): one
task per configured non-empty direction OID; `interface_counters` receives an entry for an
interface only when at least one of its direction tasks succeeded (`entry(..).or_insert` is
only reached on `Ok`), with the fetched `f64` cast to `u64`. The cast is modelled as
`min ⌊value⌋ (2^64-1)` clamped below by 0, the Rust saturating `as` cast. -/
def f64_as_u64 (q : ℚ) : Nat := min (Int.toNat ⌊q⌋) (2 ^ 64 - 1)

def interface_counters (c : ResourceCollector)
    (ifaceResult : String → String → FetchResult) :
    List (String × Option Nat × Option Nat) :=
  c.interface_oids.filterMap (fun nio =>
    let name := nio.1
    let inOid := nio.2.1
    let outOid := nio.2.2
    let inCtr := if inOid ≠ "" then
        match ifaceResult name "in" with
        | .ok v => some (f64_as_u64 v)
        | .failed => none
      else none
    let outCtr := if outOid ≠ "" then
        match ifaceResult name "out" with
        | .ok v => some (f64_as_u64 v)
        | .failed => none
      else none
    if inCtr.isSome || outCtr.isSome then some (name, inCtr, outCtr) else none)

/-- `ResourceCollector::collect_for_proxy` (src/collector.rs:39-297) as a function of the
settled task outcomes (`metricResult` for the seven metric keys, `ifaceResult` for the
interface-direction fetches), the shared cache and the wall-clock time. Metric tasks are
spawned per the per-key configuration checks of lines 54-147; `collection_failed` and
`error_message` are the immutable `false` / `None` bindings of lines 48-49. The function
always returns `Ok(record)` in the source; the `Result` wrapper is dropped here. -/
def collect_for_proxy (c : ResourceCollector) (proxy : Proxy)
    (metricResult : String → FetchResult)
    (ifaceResult : String → String → FetchResult)
    (cache : RateCache) (now : ℚ) : ResourceData × RateCache :=
  let cpu := match c.oids "cpu" with
    | some cpuOid =>
      if rust_trim cpuOid ≠ [] ∧ ¬ (eq_ignore_ascii_case cpuOid "ssh" = true) then
        snmpTaskValue (metricResult "cpu")
      else none
    | none => none
  let mem := match c.oids "mem" with
    | some memOid =>
      if eq_ignore_ascii_case memOid "ssh" = true then
        snmpTaskValue (metricResult "mem")  -- SSH task; same settled-outcome model
      else if rust_trim memOid ≠ [] then
        snmpTaskValue (metricResult "mem")
      else none
    | none => none
  let simpleMetric := fun (key : String) =>
    match c.oids key with
    | some oid => if rust_trim oid ≠ [] then snmpTaskValue (metricResult key) else none
    | none => none
  let ifres :=
    if c.interface_oids.isEmpty then ([], cache)
    else process_interfaces proxy.id now (interface_counters c ifaceResult) cache
  ({ proxy_id := proxy.id
     host := proxy.host
     proxy_name := none
     cpu := cpu
     mem := mem
     cc := simpleMetric "cc"
     cs := simpleMetric "cs"
     http := simpleMetric "http"
     https := simpleMetric "https"
     ftp := simpleMetric "ftp"
     interfaces := ifres.1
     collected_at := now
     collection_failed := false
     error_message := none }, ifres.2)

/-- The settled outcome of one per-device task in `collect_multiple`
(src/collector.rs:321-400): success with the device's record, an error from the task, a
join (panic) failure, or the 5-second timeout. -/
inductive DeviceOutcome where
  | ok (data : ResourceData)
  | err (msg : String)
  | taskErr (msg : String)
  | timeout
deriving DecidableEq

def DeviceOutcome.isOk : DeviceOutcome → Bool
  | .ok _ => true
  | _ => false

/-- The synthesized failure record of `collect_multiple` (src/collector.rs:334-396). -/
def failed_data (proxy : Proxy) (now : ℚ) (msg : String) : ResourceData :=
  { proxy_id := proxy.id
    host := proxy.host
    proxy_name := none
    cpu := none
    mem := none
    cc := none
    cs := none
    http := none
    https := none
    ftp := none
    interfaces := []
    collected_at := now
    collection_failed := true
    error_message := some msg }

/-- `proxy_map.get(&proxy_id)` (src/collector.rs:303-306,333): the map is filled by
inserting every proxy under its id in list order, so a lookup returns the last proxy in the
list carrying that id. -/
def proxyMapGet (proxies : List Proxy) (id : Nat) : Option Proxy :=
  (proxies.filter (fun p => p.id == id)).getLast?

/-- The result-accumulation loop of `collect_multiple` (src/collector.rs:321-401): one
record is pushed per awaited task — the task's own record on success, otherwise a
synthesized `failed_data` built from the proxy map (the Korean messages are the source's). -/
def collect_records (proxies : List Proxy) (now : ℚ) :
    List (Proxy × DeviceOutcome) → List ResourceData
  | [] => []
  | (p, o) :: rest =>
    (match o with
     | .ok data => [data]
     | .err e =>
       match proxyMapGet proxies p.id with
       | some proxy => [failed_data proxy now ("수집 실패: " ++ e)]
       | none => []
     | .taskErr e =>
       match proxyMapGet proxies p.id with
       | some proxy => [failed_data proxy now ("태스크 실행 실패: " ++ e)]
       | none => []
     | .timeout =>
       match proxyMapGet proxies p.id with
       | some proxy => [failed_data proxy now "수집 타임아웃"]
       | none => []) ++ collect_records proxies now rest

/-- `ResourceCollector::collect_multiple` (src/collector.rs:301-407) as a function of the
per-device settled outcomes: accumulate one record per task, sort by `proxy_id`, and return
`Ok` unconditionally (the function has no failure path). Rust's `sort_by_key` is a stable
sort; it is modelled by the stable `List.insertionSort`, which agrees with every stable
sort by the same key. -/
def collect_multiple (xs : List (Proxy × DeviceOutcome)) (now : ℚ) :
    Except String (List ResourceData) :=
  Except.ok (List.insertionSort (fun a b => a.proxy_id ≤ b.proxy_id)
    (collect_records (xs.map (fun pr => pr.1)) now xs))

/-! ## Spec-side reference definitions and concrete fixtures -/

/-- Modelled from the spec (section 4.1): the little-endian 7-bit groups of an arc value,
fuel-bounded like `natToBytesLEFuel`. -/
def base128GroupsLEFuel : Nat → Nat → List Nat
  | 0, _ => []
  | fuel + 1, n => if n = 0 then [] else n % 128 :: base128GroupsLEFuel fuel (n / 128)

/-- Set the continuation (high) bit on every byte except the last. -/
def setContinuation : List Nat → List Nat
  | [] => []
  | [g] => [g]
  | g :: gs => (0x80 ||| g) :: setContinuation gs

/-- Modelled from the spec (section 4.1): BER base-128 encoding of one OID arc — big-endian
7-bit groups with the continuation bit set on all but the last byte. -/
def base128_arc (n : Nat) : List Nat :=
  if n = 0 then [0] else setContinuation (base128GroupsLEFuel n n).reverse

/-- Modelled from the claim (C10): the two's-complement integer value of a big-endian byte
string — its unsigned value, minus `2^(8·len)` when the top bit of the first byte is set. -/
def twos_complement_value (data : List Nat) : Int :=
  let u : Nat := data.foldl (fun acc b => acc * 256 + b) 0
  if data.headD 0 < 128 then (u : Int) else (u : Int) - 2 ^ (8 * data.length)

/-- A well-formed GetResponse for this parser (error-status 0, community "public",
request-id 1, OID 1.3) whose VarBind value is one byte `5` carried under `valueTag`. -/
def snmpResp (valueTag : Nat) : List Nat :=
  [0x30, 34, 0x02, 1, 1, 0x04, 6, 0x70, 0x75, 0x62, 0x6c, 0x69, 0x63,
   0xa2, 21, 0x30, 19, 0x02, 1, 1, 0x02, 1, 0, 0x02, 1, 0,
   0x30, 8, 0x30, 6, 0x06, 1, 0x2b, valueTag, 1, 5]

/-- A collector configured with a single metric (cpu) and no interfaces. -/
def cfgCpuOnly : ResourceCollector :=
  { oids := fun k => if k = "cpu" then some "1.3.6.1.4.1.2021.11.11.0" else none
    community := "public"
    interface_oids := [] }

def proxyA : Proxy :=
  { id := 1, host := "10.0.0.1", port := 22, username := "u", password := "p", group := "g" }

def proxyB : Proxy :=
  { id := 2, host := "10.0.0.2", port := 22, username := "u", password := "p", group := "g" }

/-- Per-element coherence of a success outcome with its device: in the source the per-device
task runs `collect_for_proxy`, which stamps the device's own id into the record it returns,
so an `ok` outcome always carries its device's id. -/
def outcomeIdOk (pr : Proxy × DeviceOutcome) : Bool :=
  match pr.2 with
  | .ok d => d.proxy_id == pr.1.id
  | _ => true

/-- A record as `collect_for_proxy` would produce for `proxyA` with every fetch failing. -/
def dataA : ResourceData :=
  (collect_for_proxy cfgCpuOnly proxyA (fun _ => .failed) (fun _ _ => .failed) [] 100).1

/-! ## Helper lemmas about the byte loop -/

theorem natToBytesLEFuel_eq_of_le :
    ∀ fuel fuel' n, n ≤ fuel → n ≤ fuel' →
      natToBytesLEFuel fuel n = natToBytesLEFuel fuel' n := by
  intro fuel
  induction fuel with
  | zero =>
    intro fuel' n h _
    have hn : n = 0 := by omega
    subst hn
    cases fuel' <;> simp [natToBytesLEFuel]
  | succ f ih =>
    intro fuel' n h h'
    by_cases hn : n = 0
    · subst hn
      cases fuel' <;> simp [natToBytesLEFuel]
    · cases fuel' with
      | zero => omega
      | succ f' =>
        have hd : n / 256 < n := Nat.div_lt_self (Nat.pos_of_ne_zero hn) (by norm_num)
        simp only [natToBytesLEFuel, hn, if_false, ite_false]
        rw [ih f' (n / 256) (by omega) (by omega)]

/-- The unfolding equation of the byte loop, independent of the fuel. -/
theorem natToBytesLE_eq (n : Nat) :
    natToBytesLE n = if n = 0 then [] else n % 256 :: natToBytesLE (n / 256) := by
  by_cases hn : n = 0
  · subst hn; rfl
  · obtain ⟨m, rfl⟩ : ∃ m, n = m + 1 := ⟨n - 1, by omega⟩
    show natToBytesLEFuel (m + 1) (m + 1) = _
    have hd : (m + 1) / 256 < m + 1 := Nat.div_lt_self (by omega) (by norm_num)
    simp only [natToBytesLEFuel, hn, if_false, ite_false]
    rw [natToBytesLEFuel_eq_of_le m ((m + 1) / 256) ((m + 1) / 256) (by omega) le_rfl]
    rfl

theorem natToBytesLE_ne_nil {n : Nat} (h : n ≠ 0) : natToBytesLE n ≠ [] := by
  rw [natToBytesLE_eq]
  simp [h]

theorem natToBytesLE_length_le :
    ∀ n k : Nat, n < 2 ^ (8 * k) → (natToBytesLE n).length ≤ k := by
  intro n
  induction n using Nat.strong_induction_on with
  | _ n ih =>
    intro k hn
    rw [natToBytesLE_eq]
    by_cases h : n = 0
    · simp [h]
    · simp only [h, if_false, ite_false, List.length_cons]
      cases k with
      | zero =>
        exfalso
        simp only [Nat.mul_zero, pow_zero] at hn
        omega
      | succ k' =>
        have hd : n / 256 < n := Nat.div_lt_self (Nat.pos_of_ne_zero h) (by norm_num)
        have hlt : n / 256 < 2 ^ (8 * k') := by
          have h2 : n < 2 ^ (8 * k') * 256 := by
            have : 2 ^ (8 * (k' + 1)) = 2 ^ (8 * k') * 256 := by ring
            omega
          exact (Nat.div_lt_iff_lt_mul (by norm_num)).2 h2
        have := ih (n / 256) hd k' hlt
        omega

/-- Decoding the big-endian bytes of `n` by the shift-or loop recovers `n`. -/
theorem foldl_shiftor_natToBytesLE :
    ∀ n acc : Nat,
      ((natToBytesLE n).reverse).foldl (fun len b => (len <<< 8) ||| b) acc =
        acc * 256 ^ (natToBytesLE n).length + n := by
  intro n
  induction n using Nat.strong_induction_on with
  | _ n ih =>
    intro acc
    rw [natToBytesLE_eq]
    by_cases h : n = 0
    · simp [h]
    · simp only [h, if_false, ite_false, List.reverse_cons, List.foldl_append,
        List.length_cons, List.foldl_cons, List.foldl_nil]
      have hd : n / 256 < n := Nat.div_lt_self (Nat.pos_of_ne_zero h) (by norm_num)
      rw [ih (n / 256) hd acc]
      have hb : n % 256 < 2 ^ 8 := by
        have := Nat.mod_lt n (show 0 < 256 by norm_num)
        omega
      rw [Nat.shiftLeft_eq]
      rw [mul_comm (acc * 256 ^ (natToBytesLE (n / 256)).length + n / 256) (2 ^ 8)]
      rw [← Nat.mul_add_lt_is_or hb]
      have hmod := Nat.div_add_mod n 256
      have : (256 : Nat) ^ ((natToBytesLE (n / 256)).length + 1) =
          256 ^ (natToBytesLE (n / 256)).length * 256 := by ring
      rw [this]
      ring_nf
      omega

/-- C9 helper: a value below 128 has bit 7 clear. -/
theorem and_128_eq_zero {L : Nat} (h : L < 128) : L &&& 128 = 0 := by
  have ht : L.testBit 7 = false := Nat.testBit_lt_two_pow (by simpa using h)
  have h2 := Nat.and_two_pow L 7
  rw [ht] at h2
  simpa using h2

theorem lor128_and128 {k : Nat} (hk : k < 128) : (128 ||| k) &&& 128 = 128 := by
  rw [Nat.and_distrib_right, and_128_eq_zero hk]
  decide

theorem lor128_and127 {k : Nat} (hk : k < 128) : (128 ||| k) &&& 127 = k := by
  rw [Nat.and_distrib_right]
  have h1 : (128 : Nat) &&& 127 = 0 := by decide
  have h2 : k &&& 127 = k := by
    have h3 := Nat.and_pow_two_sub_one_eq_mod k 7
    norm_num at h3
    rw [h3]
    exact Nat.mod_eq_of_lt hk
  rw [h1, h2, Nat.zero_or]

/-- C9: for every length `L < 2^32`, decoding the byte sequence produced by `encode_length`
recovers exactly `L`, and the reported consumed-byte count equals the number of bytes the
encoder produced (short single-byte form below 128, long form `0x80|n` + `n` big-endian
bytes otherwise). -/
theorem decode_encode_length (L : Nat) (h : L < 2 ^ 32) :
    decode_length (encode_length L) = Except.ok (L, (encode_length L).length) := by
  by_cases hL : L < 128
  · have h128 := and_128_eq_zero hL
    simp [encode_length, decode_length, hL, h128]
  · have hL0 : L ≠ 0 := by omega
    have hne := natToBytesLE_ne_nil hL0
    have hlen4 : (natToBytesLE L).length ≤ 4 := natToBytesLE_length_le L 4 (by simpa using h)
    have hlen1 : (natToBytesLE L).length ≠ 0 := by
      intro h0
      exact hne (List.length_eq_zero.1 h0)
    have hfold := foldl_shiftor_natToBytesLE L 0
    simp only [Nat.zero_mul, Nat.zero_add] at hfold
    have hR128 : (natToBytesLE L).reverse.length < 128 := by
      rw [List.length_reverse]; omega
    have hRlen1 : (natToBytesLE L).reverse.length ≠ 0 := by
      rw [List.length_reverse]; exact hlen1
    have hRlen4 : ¬ (natToBytesLE L).reverse.length > 4 := by
      rw [List.length_reverse]; omega
    rw [encode_length]
    simp only [hL, if_false, ite_false]
    simp only [decode_length]
    rw [lor128_and128 hR128, lor128_and127 hR128]
    simp only [hRlen1, hRlen4, or_self, if_false, ite_false, or_false, false_or,
      lt_irrefl, List.take_length, hfold, List.length_cons]
    norm_num [Nat.add_comm]

/-- C9 witness: the round trip at the concrete long-form length 300. -/
theorem decode_encode_length_witness :
    decode_length (encode_length 300) = Except.ok (300, (encode_length 300).length) :=
  decode_encode_length 300 (by norm_num)

/-- C3: `build_get_request` assembles the OID content from `encode_unsigned_int`, plain
base-256 with no continuation bits, not the BER base-128 arc encoding the spec states.
On the source's own doc-comment OID `1.3.6.1.4.1.2021.11.11.0` the arc 2021 is emitted as
`[0x07, 0xE5]` where BER requires `[0x8F, 0x65]`. The first-two-arcs byte and the
zero-parsed-integers error behave as claimed. -/
theorem oid_arcs_not_base128 :
    oid_content_bytes (parse_oid "1.3.6.1.4.1.2021.11.11.0") =
      [43, 6, 1, 4, 1, 7, 229, 11, 11, 0] ∧
    encode_unsigned_int 2021 = [7, 229] ∧
    base128_arc 2021 = [143, 101] ∧
    oid_content_bytes (parse_oid "1.3.6.1.4.1.2021.11.11.0") ≠
      [43, 6, 1, 4, 1, 143, 101, 11, 11, 0] ∧
    build_get_request [] "" 1 = Except.error "Invalid OID format" :=
  ⟨rfl, rfl, rfl, by decide, rfl⟩

/-- C4: a well-formed GetResponse whose value carries the standard Counter32 tag 0x41 is
rejected as an unsupported type — the value match covers only 0x02, 0x42, 0x43 and 0x46
(mislabelling 0x42 as Counter32 and 0x43 as Gauge32) — while the claim lists 0x41 among the
supported numeric application tags. Tags outside the claim's numeric set (OCTET STRING 0x04,
NULL 0x05) fail as claimed. -/
theorem parse_get_response_rejects_counter32 :
    parse_get_response (snmpResp 0x41) = Except.error "Unsupported SNMP value type" ∧
    parse_get_response (snmpResp 0x02) = Except.ok 5 ∧
    parse_get_response (snmpResp 0x42) = Except.ok 5 ∧
    parse_get_response (snmpResp 0x43) = Except.ok 5 ∧
    parse_get_response (snmpResp 0x46) = Except.ok 5 ∧
    parse_get_response (snmpResp 0x04) = Except.error "Unsupported SNMP value type" ∧
    parse_get_response (snmpResp 0x05) = Except.error "Unsupported SNMP value type" :=
  ⟨rfl, rfl, rfl, rfl, rfl, rfl, rfl⟩

/-- C6: `encode_integer` never emits a sign-disambiguating pad byte: the content for 128 is
the single byte 0x80, which `decode_integer` reads back as −128, so encode-then-decode does
not recover 128. At `i32::MIN` the encoder's content is correct but the decoder's broken
4-byte sign mask (see C10) returns −1 in a release build, so that round trip fails too. -/
theorem encode_integer_no_sign_pad :
    encode_integer 128 = [0x02, 0x01, 0x80] ∧
    decode_integer [0x80] = Except.ok (-128) ∧
    ((-128 : Int) ≠ 128) ∧
    encode_integer (-2147483648) = [0x02, 0x04, 0x80, 0x00, 0x00, 0x00] ∧
    decode_integer [0x80, 0x00, 0x00, 0x00] = Except.ok (-1) :=
  ⟨rfl, rfl, by decide, rfl, rfl⟩

/-- C10: on every 4-byte input with the sign bit set, the sign-extension mask of
`decode_integer` is computed from the overflowing shift `1u32 << 32`: a debug build panics
and a release build reduces the shift amount to 0, making the mask all-ones, so the decoder
returns −1 instead of the two's-complement value of the bytes. -/
theorem decode_integer_sign_extension_wrong :
    decode_integer [0x80, 0x00, 0x00, 0x00] = Except.ok (-1) ∧
    twos_complement_value [0x80, 0x00, 0x00, 0x00] = -2147483648 ∧
    ((-1 : Int) ≠ -2147483648) ∧
    decode_integer [0xff, 0xff, 0xff, 0x85] = Except.ok (-1) ∧
    twos_complement_value [0xff, 0xff, 0xff, 0x85] = -123 :=
  ⟨rfl, by decide, by decide, rfl, by decide⟩

/-! ## Collector theorems -/

/-- Looking up the key just inserted returns the inserted value. -/
theorem cacheLookup_insert :
    ∀ (cache : RateCache) (key : Nat × String) (v : Nat × Nat × ℚ),
      cacheLookup (cacheInsert cache key v) key = some v := by
  intro cache key v
  induction cache with
  | nil => simp [cacheInsert, cacheLookup]
  | cons kv rest ih =>
    obtain ⟨k, v'⟩ := kv
    by_cases hk : k = key
    · simp [cacheInsert, hk, cacheLookup]
    · simp [cacheInsert, hk, cacheLookup, ih]

/-- C7: for each interface entry processed in a cycle: with no prior cached sample nothing is
emitted; with a prior sample nothing is emitted unless `1.0 ≤ Δt ≤ 300.0`; and in every case
the cache entry for the `(device, interface)` pair is overwritten with the latest raw
counters (an absent direction stored as 0, per `unwrap_or(0)`) and the new timestamp. -/
theorem rate_step_spec (proxyId : Nat) (now : ℚ) (ifName : String)
    (inC outC : Option Nat) (cache : RateCache) :
    (cacheLookup cache (proxyId, ifName) = none →
      (rate_step proxyId now ifName inC outC cache).1 = none) ∧
    (∀ prevIn prevOut prevTime,
      cacheLookup cache (proxyId, ifName) = some (prevIn, prevOut, prevTime) →
      ¬ (1 ≤ now - prevTime ∧ now - prevTime ≤ 300) →
      (rate_step proxyId now ifName inC outC cache).1 = none) ∧
    cacheLookup (rate_step proxyId now ifName inC outC cache).2 (proxyId, ifName) =
      some (inC.getD 0, outC.getD 0, now) := by
  refine ⟨?_, ?_, ?_⟩
  · intro h
    simp [rate_step, h]
  · intro prevIn prevOut prevTime h hw
    simp only [rate_step, h]
    rw [if_neg hw]
  · show cacheLookup (cacheInsert cache (proxyId, ifName) _) (proxyId, ifName) = _
    exact cacheLookup_insert cache _ _

/-- C7 witness: a first poll of a new pair (empty cache) emits nothing and seeds the cache. -/
theorem rate_step_spec_witness :
    (rate_step 1 100 "eth0" (some 5) none []).1 = none ∧
    cacheLookup (rate_step 1 100 "eth0" (some 5) none []).2 (1, "eth0") =
      some (5, 0, 100) :=
  ⟨(rate_step_spec 1 100 "eth0" (some 5) none []).1 rfl,
   (rate_step_spec 1 100 "eth0" (some 5) none []).2.2⟩

/-- C5: the wraparound diff is exactly the claimed `(u64::MAX − prev) + current + 1` and the
rate at the spec's wrap example (prev=4294967290, current=5, Δt=2.0) is positive; but the
function divides by `Δt * 1_000_000` (megabits per second), not the claimed
`bits_per_second = diff * 8 / Δt`: at prev=0, current=250000, Δt=2.0 it returns 1, while the
bit rate — which the `InterfaceTraffic` docs and the UI formatting expect — is 1,000,000. -/
theorem calculate_mbps_unit_mismatch :
    calculate_mbps 4294967290 5 2 = ((18446744069414584331 : ℚ) * 8) / (2 * 1000000) ∧
    0 < calculate_mbps 4294967290 5 2 ∧
    calculate_mbps 0 250000 2 = 1 ∧
    calculate_mbps 0 250000 2 ≠ ((250000 : ℚ) * 8) / 2 := by
  refine ⟨?_, ?_, ?_, ?_⟩ <;> norm_num [calculate_mbps]

/-- C1 counterexample: a device with one configured metric (cpu) whose fetch failed — zero of
its configured metrics were fetched — still gets `collection_failed = false`
(`collect_for_proxy` binds `collection_failed`/`error_message` immutably to false/None),
refuting "failed = true exactly when zero configured metrics could be fetched". -/
theorem collect_for_proxy_failed_zero_metrics :
    cfgCpuOnly.oids "cpu" = some "1.3.6.1.4.1.2021.11.11.0" ∧
    dataA.cpu = none ∧ dataA.mem = none ∧ dataA.cc = none ∧ dataA.cs = none ∧
    dataA.http = none ∧ dataA.https = none ∧ dataA.ftp = none ∧
    dataA.collection_failed = false := by
  refine ⟨rfl, rfl, rfl, rfl, rfl, rfl, rfl, rfl, rfl⟩

/-- C1 (amended): collect_for_proxy always returns `collection_failed = false` and
`error_message = None`; per-metric failures only leave the fields absent (partial or even
total failure is reported as a non-failed record), and failed records arise only from
collect_multiple's task-level handling. -/
theorem collect_for_proxy_never_failed (c : ResourceCollector) (proxy : Proxy)
    (metricResult : String → FetchResult) (ifaceResult : String → String → FetchResult)
    (cache : RateCache) (now : ℚ) :
    (collect_for_proxy c proxy metricResult ifaceResult cache now).1.collection_failed
        = false ∧
    (collect_for_proxy c proxy metricResult ifaceResult cache now).1.error_message = none :=
  ⟨rfl, rfl⟩

/-- The record produced for a device carries that device's id. -/
theorem collect_for_proxy_id (c : ResourceCollector) (proxy : Proxy)
    (metricResult : String → FetchResult) (ifaceResult : String → String → FetchResult)
    (cache : RateCache) (now : ℚ) :
    (collect_for_proxy c proxy metricResult ifaceResult cache now).1.proxy_id = proxy.id :=
  rfl

/-- The proxy map always finds an entry for the id of a proxy in the list, and the entry it
finds carries that id. -/
theorem proxyMapGet_of_mem {proxies : List Proxy} {p : Proxy} (h : p ∈ proxies) :
    ∃ q, proxyMapGet proxies p.id = some q ∧ q.id = p.id := by
  have hmem : p ∈ proxies.filter (fun q => q.id == p.id) :=
    List.mem_filter.2 ⟨h, by simp⟩
  have hne : proxies.filter (fun q => q.id == p.id) ≠ [] := by
    intro h0
    rw [h0] at hmem
    exact absurd hmem (List.not_mem_nil p)
  obtain ⟨q, hq⟩ := Option.isSome_iff_exists.1 (List.getLast?_isSome.2 hne)
  refine ⟨q, hq, ?_⟩
  have hqmem := List.mem_of_getLast?_eq_some hq
  have := (List.mem_filter.1 hqmem).2
  simpa using this

/-- One record is accumulated per awaited per-device task. -/
theorem collect_records_length (proxies : List Proxy) (now : ℚ) :
    ∀ xs : List (Proxy × DeviceOutcome), (∀ pr ∈ xs, pr.1 ∈ proxies) →
      (collect_records proxies now xs).length = xs.length := by
  intro xs
  induction xs with
  | nil => intro _; rfl
  | cons pr rest ih =>
    intro h
    obtain ⟨p, o⟩ := pr
    have hp : p ∈ proxies := h (p, o) (List.mem_cons_self _ _)
    obtain ⟨q, hq, _⟩ := proxyMapGet_of_mem hp
    have htail := ih (fun x hx => h x (List.mem_cons_of_mem _ hx))
    cases o <;> simp [collect_records, hq, htail]

/-- The accumulated records carry the device ids positionally. -/
theorem collect_records_map_id (proxies : List Proxy) (now : ℚ) :
    ∀ xs : List (Proxy × DeviceOutcome),
      (∀ pr ∈ xs, outcomeIdOk pr = true) → (∀ pr ∈ xs, pr.1 ∈ proxies) →
      (collect_records proxies now xs).map (fun r => r.proxy_id) =
        xs.map (fun pr => pr.1.id) := by
  intro xs
  induction xs with
  | nil => intro _ _; rfl
  | cons pr rest ih =>
    intro h1 h
    obtain ⟨p, o⟩ := pr
    have hp : p ∈ proxies := h (p, o) (List.mem_cons_self _ _)
    obtain ⟨q, hq, hqid⟩ := proxyMapGet_of_mem hp
    have htail := ih (fun x hx => h1 x (List.mem_cons_of_mem _ hx))
      (fun x hx => h x (List.mem_cons_of_mem _ hx))
    have hhead := h1 (p, o) (List.mem_cons_self _ _)
    cases o with
    | ok d =>
      have : d.proxy_id = p.id := by simpa [outcomeIdOk] using hhead
      simp [collect_records, htail, this]
    | err e => simp [collect_records, hq, failed_data, hqid, htail]
    | taskErr e => simp [collect_records, hq, failed_data, hqid, htail]
    | timeout => simp [collect_records, hq, failed_data, hqid, htail]

/-- Every device with a non-success outcome contributes a synthesized failed record with its
own id. -/
theorem collect_records_failed_mem (proxies : List Proxy) (now : ℚ) :
    ∀ xs : List (Proxy × DeviceOutcome), (∀ pr ∈ xs, pr.1 ∈ proxies) →
      ∀ pr ∈ xs, pr.2.isOk = false →
        ∃ r ∈ collect_records proxies now xs,
          r.proxy_id = pr.1.id ∧ r.collection_failed = true := by
  intro xs
  induction xs with
  | nil => intro _ pr hpr; exact absurd hpr (List.not_mem_nil pr)
  | cons hd rest ih =>
    intro h pr hpr hfail
    obtain ⟨p, o⟩ := hd
    rcases List.mem_cons.1 hpr with heq | hmem
    · subst heq
      have hp : p ∈ proxies := h (p, o) (List.mem_cons_self _ _)
      obtain ⟨q, hq, hqid⟩ := proxyMapGet_of_mem hp
      cases o with
      | ok d => simp [DeviceOutcome.isOk] at hfail
      | err e =>
        refine ⟨failed_data q now ("수집 실패: " ++ e), ?_, by simp [failed_data, hqid], rfl⟩
        simp [collect_records, hq]
      | taskErr e =>
        refine ⟨failed_data q now ("태스크 실행 실패: " ++ e), ?_,
          by simp [failed_data, hqid], rfl⟩
        simp [collect_records, hq]
      | timeout =>
        refine ⟨failed_data q now "수집 타임아웃", ?_, by simp [failed_data, hqid], rfl⟩
        simp [collect_records, hq]
    · obtain ⟨r, hr, hrid, hrf⟩ :=
        ih (fun x hx => h x (List.mem_cons_of_mem _ hx)) pr hmem hfail
      refine ⟨r, ?_, hrid, hrf⟩
      show r ∈ collect_records proxies now ((p, o) :: rest)
      cases o <;> simp [collect_records] <;> exact Or.inr hr

/-- C2 counterexample: a non-empty device list (one device) whose only task timed out —
every record in the result is failed — yet `collect_multiple` returns Ok carrying the failed
record, not Err: the function has no failure path (the all-failed case is detected by the
caller by counting flags, src/app/app.rs:205-231). -/
theorem collect_multiple_all_failed_still_ok :
    collect_multiple [(proxyA, DeviceOutcome.timeout)] 100 =
      Except.ok [failed_data proxyA 100 "수집 타임아웃"] ∧
    (failed_data proxyA 100 "수집 타임아웃").collection_failed = true :=
  ⟨rfl, rfl⟩

/-- C2 (amended): `collect_multiple` always returns Ok — also when the device list is
non-empty and every device failed; all-failure is visible only in the per-record
`collection_failed` flags — with exactly one record per requested device, and an empty
device list yields `Ok []`. -/
theorem collect_multiple_always_ok (xs : List (Proxy × DeviceOutcome)) (now : ℚ) :
    ∃ rs, collect_multiple xs now = Except.ok rs ∧ rs.length = xs.length := by
  refine ⟨_, rfl, ?_⟩
  rw [(List.perm_insertionSort _ _).length_eq]
  exact collect_records_length (xs.map (fun pr => pr.1)) now xs
    (fun pr hpr => List.mem_map_of_mem _ hpr)

/-- C8: for devices with distinct ids (and per-device task results stamped with their own
device's id, as `collect_for_proxy` guarantees), `collect_multiple` returns one record per
requested device — a timed-out, errored or panicked task yields a synthesized
`failed = true` record instead of being dropped — and the result is sorted by ascending
device id. -/
theorem collect_multiple_one_record_each
    (xs : List (Proxy × DeviceOutcome)) (now : ℚ)
    (h1 : ∀ pr ∈ xs, outcomeIdOk pr = true)
    (h2 : (xs.map (fun pr => pr.1.id)).Nodup) :
    ∃ rs, collect_multiple xs now = Except.ok rs ∧
      (rs.map (fun r => r.proxy_id)).Perm (xs.map (fun pr => pr.1.id)) ∧
      (∀ pr ∈ xs, pr.2.isOk = false →
        ∃ r ∈ rs, r.proxy_id = pr.1.id ∧ r.collection_failed = true) ∧
      List.Sorted (fun a b => a.proxy_id ≤ b.proxy_id) rs := by
  refine ⟨_, rfl, ?_, ?_, ?_⟩
  · have hperm := (List.perm_insertionSort
      (fun (a b : ResourceData) => a.proxy_id ≤ b.proxy_id)
      (collect_records (xs.map (fun pr => pr.1)) now xs)).map (fun r => r.proxy_id)
    rwa [collect_records_map_id (xs.map (fun pr => pr.1)) now xs h1
      (fun pr hpr => List.mem_map_of_mem _ hpr)] at hperm
  · intro pr hpr hfail
    obtain ⟨r, hr, hrid, hrf⟩ := collect_records_failed_mem (xs.map (fun pr => pr.1)) now xs
      (fun x hx => List.mem_map_of_mem _ hx) pr hpr hfail
    exact ⟨r, (List.perm_insertionSort _ _).mem_iff.2 hr, hrid, hrf⟩
  · haveI : IsTotal ResourceData (fun a b => a.proxy_id ≤ b.proxy_id) :=
      ⟨fun a b => Nat.le_total _ _⟩
    haveI : IsTrans ResourceData (fun a b => a.proxy_id ≤ b.proxy_id) :=
      ⟨fun _ _ _ hab hbc => Nat.le_trans hab hbc⟩
    exact List.sorted_insertionSort _ _

/-- C8 witness: two devices (ids 2 and 1, out of order), the first timing out and the second
succeeding: each gets exactly one record, the timed-out one a failed record, and the output
is sorted by id. -/
theorem collect_multiple_one_record_each_witness :
    ∃ rs,
      collect_multiple [(proxyB, DeviceOutcome.timeout), (proxyA, DeviceOutcome.ok dataA)]
        100 = Except.ok rs ∧
      (rs.map (fun r => r.proxy_id)).Perm
        ([(proxyB, DeviceOutcome.timeout), (proxyA, DeviceOutcome.ok dataA)].map
          (fun pr => pr.1.id)) ∧
      (∀ pr ∈ [(proxyB, DeviceOutcome.timeout), (proxyA, DeviceOutcome.ok dataA)],
        pr.2.isOk = false →
        ∃ r ∈ rs, r.proxy_id = pr.1.id ∧ r.collection_failed = true) ∧
      List.Sorted (fun a b => a.proxy_id ≤ b.proxy_id) rs :=
  collect_multiple_one_record_each
    [(proxyB, DeviceOutcome.timeout), (proxyA, DeviceOutcome.ok dataA)] 100
    (by decide) (by decide)
